import Mathlib

/-!
Shallow embedding of `src/pa3.c`: a simulated virtual-memory subsystem with a
TLB, per-process two-level page tables, a frame reference-count table
(`mapcounts`), demand allocation, copy-on-write fault handling, and
process switch/fork.

Modelling conventions:
* C `unsigned int` counters are `Nat` with arithmetic taken modulo `2^32`
  exactly where the C can wrap (`mapcounts[pfn]++` / `mapcounts[pfn]--`).
* Fixed C arrays are modelled as total functions `Nat → _`; the meaningful
  indices are `0 ≤ i < NR_PTES_PER_PAGE` (resp. `NR_PAGEFRAMES`,
  `NR_TLB_ENTRIES`); counting operations range only over those indices.
* `malloc`-ed memory whose content the C code leaves uninitialized is
  modelled as zero-initialized (`PTE.init`, absent directories as `none`);
  no claim below depends on the garbage content.
* A `free_page` call that would dereference a NULL outer directory in C is
  modelled by returning `none`.
* The constants below come from the framework headers (`vm.h`), which are
  not part of this repository snapshot.  Modelled from the spec: the TLB
  capacity is the page-table fan-out squared, the sharing cap is 16, and the
  frame pool / fan-out sizes are the reference system's 128 and 16.
-/

def NR_PTES_PER_PAGE : Nat := 16
def NR_PAGEFRAMES : Nat := 128
def NR_TLB_ENTRIES : Nat := 256

/-- Modulus of C `unsigned int` arithmetic. -/
def UINT_MOD : Nat := 4294967296

/-- C `unsigned int` increment (`c++`). -/
def uinc (c : Nat) : Nat := (c + 1) % UINT_MOD

/-- C `unsigned int` decrement (`c--`), wrapping at zero. -/
def udec (c : Nat) : Nat := (c + (UINT_MOD - 1)) % UINT_MOD

/-- A page-table entry: `struct pte` of the source (`valid`, `writable`,
`pfn`, and the overloaded `private` field, here `priv`). -/
structure PTE where
  valid : Bool
  writable : Bool
  pfn : Nat
  priv : Nat
deriving DecidableEq

/-- The all-zero PTE (also the value `free_page` writes back). -/
def PTE.init : PTE := ⟨false, false, 0, 0⟩

/-- Inner level: `struct pte_directory`, an array of `NR_PTES_PER_PAGE` PTEs. -/
structure PTEDirectory where
  ptes : Nat → PTE

def PTEDirectory.init : PTEDirectory := ⟨fun _ => PTE.init⟩

/-- Outer level: `struct pagetable`, an array of possibly-NULL directories. -/
structure PageTable where
  outer_ptes : Nat → Option PTEDirectory

def PageTable.init : PageTable := ⟨fun _ => none⟩

/-- `struct process`: pid plus its page table (the ready-list link is the
position inside `VMState.queue`). -/
structure Process where
  pid : Nat
  pagetable : PageTable

/-- `struct tlb_entry`. -/
structure TLBEntry where
  valid : Bool
  vpn : Nat
  pfn : Nat
deriving DecidableEq

def TLBEntry.init : TLBEntry := ⟨false, 0, 0⟩

/-- The global mutable state of `pa3.c`: `current`, the ready list
`processes` (here `queue`), `ptbr`, `mapcounts`, and `tlb`. -/
structure VMState where
  current : Process
  queue : List Process
  ptbr : PageTable
  mapcounts : Nat → Nat
  tlb : Nat → TLBEntry

/-- `lookup_tlb`: linear scan of valid entries for an exact vpn match; the
C out-parameter plus `bool` return is an `Option` pfn. -/
def lookup_tlb (tlb : Nat → TLBEntry) (vpn : Nat) : Option Nat :=
  match (List.range NR_TLB_ENTRIES).find? (fun i => (tlb i).valid && (tlb i).vpn == vpn) with
  | some i => some (tlb i).pfn
  | none => none

/-- `insert_tlb`: fill the first invalid slot, silently drop when full. -/
def insert_tlb (tlb : Nat → TLBEntry) (vpn pfn : Nat) : Nat → TLBEntry :=
  match (List.range NR_TLB_ENTRIES).find? (fun i => !(tlb i).valid) with
  | some i => Function.update tlb i ⟨true, vpn, pfn⟩
  | none => tlb

/-- `free_tlb`: invalidate every valid entry matching `vpn`. -/
def free_tlb (tlb : Nat → TLBEntry) (vpn : Nat) : Nat → TLBEntry :=
  fun i => if (tlb i).valid && (tlb i).vpn == vpn then { tlb i with valid := false } else tlb i

/-- `flush_tlb`: invalidate every entry. -/
def flush_tlb (tlb : Nat → TLBEntry) : Nat → TLBEntry :=
  fun i => { tlb i with valid := false }

/-- Store directory `d` at outer index `outI` of the current process's page
table (the effect of writing through `current->pagetable.outer_ptes[outI]`). -/
def withDir (s : VMState) (outI : Nat) (d : PTEDirectory) : VMState :=
  { s with current := { s.current with pagetable :=
      ⟨Function.update s.current.pagetable.outer_ptes outI (some d)⟩ } }

/-- The frame-selection loop of `alloc_page`: `pfn` is set to each scanned
index in turn and the loop breaks at the first zero count, so the result is
the first frame with count zero, and the *last scanned index*
(`NR_PAGEFRAMES - 1`) when no count is zero. -/
def allocScanPfn (mapcounts : Nat → Nat) : Nat :=
  match (List.range NR_PAGEFRAMES).find? (fun i => mapcounts i == 0) with
  | some i => i
  | none => NR_PAGEFRAMES - 1

/-- `alloc_page(vpn, rw)`: lazily create the outer directory, run the frame
scan, fail (C return value `-1`, here `none`) only when the selected frame's
count is 16, otherwise populate the PTE and bump the count.  Note the C
creates the directory before the failure check, so the creation survives a
failing call. -/
def alloc_page (s : VMState) (vpn rw : Nat) : Option Nat × VMState :=
  let outIndex := vpn / NR_PTES_PER_PAGE
  let inIndex := vpn % NR_PTES_PER_PAGE
  let dir := (s.current.pagetable.outer_ptes outIndex).getD PTEDirectory.init
  let pfn := allocScanPfn s.mapcounts
  if s.mapcounts pfn = 16 then
    (none, withDir s outIndex dir)
  else
    let pte : PTE := if rw = 1 then ⟨true, false, pfn, 1⟩ else ⟨true, true, pfn, 3⟩
    let s1 := withDir s outIndex ⟨Function.update dir.ptes inIndex pte⟩
    (some pfn, { s1 with mapcounts := Function.update s.mapcounts pfn (uinc (s.mapcounts pfn)) })

/-- `free_page(vpn)`: decrement the mapped frame's count, zero the PTE,
invalidate the TLB entry.  When the outer directory is absent the C code
dereferences NULL; that execution is `none` here. -/
def free_page (s : VMState) (vpn : Nat) : Option VMState :=
  let outIndex := vpn / NR_PTES_PER_PAGE
  let inIndex := vpn % NR_PTES_PER_PAGE
  match s.current.pagetable.outer_ptes outIndex with
  | none => none
  | some dir =>
    let pfn := (dir.ptes inIndex).pfn
    let s1 := withDir s outIndex ⟨Function.update dir.ptes inIndex PTE.init⟩
    some { s1 with
           mapcounts := Function.update s.mapcounts pfn (udec (s.mapcounts pfn)),
           tlb := free_tlb s.tlb vpn }

/-- `handle_page_fault(vpn, rw)`: absent directory fails; an invalid PTE is
revalidated in place when the stale frame's count is 1, otherwise the stale
count is decremented and `alloc_page` is called (its return value is
discarded); a valid non-writable PTE with `private == 3` is the
copy-on-write case, promoted in place when the count is 1 and otherwise
decremented and re-allocated; everything else fails. -/
def handle_page_fault (s : VMState) (vpn rw : Nat) : Bool × VMState :=
  let outIndex := vpn / NR_PTES_PER_PAGE
  let inIndex := vpn % NR_PTES_PER_PAGE
  match s.current.pagetable.outer_ptes outIndex with
  | none => (false, s)
  | some dir =>
    let pte := dir.ptes inIndex
    if pte.valid = false then
      let s1 := withDir s outIndex ⟨Function.update dir.ptes inIndex { pte with valid := true }⟩
      if s.mapcounts pte.pfn = 1 then
        (true, s1)
      else
        let s2 := { s1 with mapcounts := Function.update s.mapcounts pte.pfn (udec (s.mapcounts pte.pfn)) }
        (true, (alloc_page s2 vpn rw).2)
    else if pte.writable = false ∧ pte.priv = 3 then
      let s1 := withDir s outIndex ⟨Function.update dir.ptes inIndex { pte with writable := true }⟩
      if s.mapcounts pte.pfn = 1 then
        (true, s1)
      else
        let s2 := { s1 with mapcounts := Function.update s.mapcounts pte.pfn (udec (s.mapcounts pte.pfn)) }
        (true, (alloc_page s2 vpn rw).2)
    else (false, s)

/-- Effect of the fork loop body on a parent PTE: a valid entry with
`private == 3` loses its writable bit, every other entry is untouched. -/
def forkParentPTE (pte : PTE) : PTE :=
  if pte.valid = true ∧ pte.priv = 3 then { pte with writable := false } else pte

/-- Effect of the fork loop body on the child's copy of a PTE: invalid
parent entries are skipped (the child slot keeps its zero-modelled malloc
content), valid ones are field-copied, with `writable` forced off when
`private == 3`. -/
def forkChildPTE (pte : PTE) : PTE :=
  if pte.valid = true then
    (if pte.priv = 3 then { pte with writable := false } else pte)
  else PTE.init

def forkParentDir (pd : PTEDirectory) : PTEDirectory := ⟨fun j => forkParentPTE (pd.ptes j)⟩

def forkChildDir (pd : PTEDirectory) : PTEDirectory := ⟨fun j => forkChildPTE (pd.ptes j)⟩

/-- The valid PTEs of a page table in the fork loop's iteration order
(outer index, then inner index). -/
def validEntries (pt : PageTable) : List PTE :=
  (List.range NR_PTES_PER_PAGE).flatMap (fun i =>
    match pt.outer_ptes i with
    | none => []
    | some pd => ((List.range NR_PTES_PER_PAGE).map pd.ptes).filter (fun p => p.valid))

/-- Number of valid PTEs of `pt` whose `pfn` is `f`. -/
def countPTEs (pt : PageTable) (f : Nat) : Nat :=
  (validEntries pt).countP (fun p => p.pfn == f)

/-- Number of valid PTEs with `pfn = f` across the current process and every
process of the ready queue. -/
def totalCount (s : VMState) (f : Nat) : Nat :=
  countPTEs s.current.pagetable f + (s.queue.map (fun p => countPTEs p.pagetable f)).sum

/-- The fork loop's `mapcounts[...]++`, once per duplicated valid PTE. -/
def bumpMapcounts (l : List PTE) (m : Nat → Nat) : Nat → Nat :=
  l.foldl (fun m p => Function.update m p.pfn (uinc (m p.pfn))) m

/-- `list_del` of the first ready-queue element with the given pid. -/
def eraseFirstPid : List Process → Nat → List Process
  | [], _ => []
  | p :: rest, pid => if p.pid = pid then rest else p :: eraseFirstPid rest pid

/-- `switch_process(pid)`: flush the TLB; if some queued process has the
pid, append `current` to the tail, unlink that process, make it current and
point `ptbr` at its page table; otherwise fork — duplicate every valid PTE
of `current` into a fresh child process (forcing `writable = false` on both
copies of `private == 3` entries and bumping each duplicated frame's count
once), enqueue the mutated parent, and run the child. -/
def switch_process (s : VMState) (pid : Nat) : VMState :=
  let tlb1 := flush_tlb s.tlb
  match s.queue.find? (fun p => p.pid == pid) with
  | some target =>
    { current := target,
      queue := eraseFirstPid s.queue pid ++ [s.current],
      ptbr := target.pagetable,
      mapcounts := s.mapcounts,
      tlb := tlb1 }
  | none =>
    let ppt : PageTable := ⟨fun i => (s.current.pagetable.outer_ptes i).map forkParentDir⟩
    let cpt : PageTable := ⟨fun i => (s.current.pagetable.outer_ptes i).map forkChildDir⟩
    { current := { pid := pid, pagetable := cpt },
      queue := s.queue ++ [{ s.current with pagetable := ppt }],
      ptbr := cpt,
      mapcounts := bumpMapcounts (validEntries s.current.pagetable) s.mapcounts,
      tlb := tlb1 }

/-- The PTE the current process holds for `vpn`, when its directory exists. -/
def pteAt (s : VMState) (vpn : Nat) : Option PTE :=
  (s.current.pagetable.outer_ptes (vpn / NR_PTES_PER_PAGE)).map
    (fun d => d.ptes (vpn % NR_PTES_PER_PAGE))

/-- A directory holding a single interesting PTE. -/
def dirW (j : Nat) (e : PTE) : PTEDirectory := ⟨Function.update PTEDirectory.init.ptes j e⟩

/-- A page table holding a single directory. -/
def ptW (i : Nat) (d : PTEDirectory) : PageTable := ⟨Function.update PageTable.init.outer_ptes i (some d)⟩

/-- Fresh boot state: one empty current process, empty ready queue, all
frame counts zero, empty TLB. -/
def initState : VMState :=
  { current := ⟨0, PageTable.init⟩,
    queue := [],
    ptbr := PageTable.init,
    mapcounts := fun _ => 0,
    tlb := fun _ => TLBEntry.init }

/-! ## Concrete states used by counterexamples and witnesses -/

/-- Pool-exhausted state for C1: every frame has one mapping. -/
def c1s : VMState := { initState with mapcounts := fun _ => 1 }

/-- C2 trace, step 1: allocate vpn 0 read-write from the boot state. -/
def c2s1 : VMState := (alloc_page initState 0 2).2

/-- C2 trace, step 2: allocate vpn 1 read-write. -/
def c2s2 : VMState := (alloc_page c2s1 1 2).2

/-- C2 trace, step 3: deallocate vpn 1. -/
def c2s3 : VMState := (free_page c2s2 1).getD c2s2

/-- State for C5's invalid-PTE case: directory 0 present, all PTEs invalid. -/
def c5sB : VMState := { initState with current := ⟨0, ptW 0 PTEDirectory.init⟩ }

/-- Page table for the C3 counterexample: one shared COW PTE at vpn 0. -/
def c3cexPT : PageTable := ptW 0 (dirW 0 ⟨true, false, 5, 3⟩)

/-- C3 counterexample state: two processes share frame 5 read-only at vpn 0
(`mapcounts 5 = 2`) and every other frame is at the sharing cap, so the
internal `alloc_page` of the copy-on-write path fails. -/
def c3cex : VMState :=
  { current := ⟨0, c3cexPT⟩,
    queue := [⟨1, c3cexPT⟩],
    ptbr := c3cexPT,
    mapcounts := fun g => if g = 5 then 2 else 16,
    tlb := fun _ => TLBEntry.init }

/-- Ready-queue processes for the C6 witness. -/
def c6pA : Process := ⟨1, PageTable.init⟩

def c6t : Process := ⟨7, PageTable.init⟩

def c6pB : Process := ⟨2, PageTable.init⟩

/-- C6 witness state: three queued processes, the target in the middle. -/
def c6s : VMState := { initState with queue := [c6pA, c6t, c6pB] }

/-- C7 witness page table: one valid non-writable COW PTE at vpn 0 on frame 5. -/
def c7pt : PageTable := ptW 0 (dirW 0 ⟨true, false, 5, 3⟩)

/-- C7 witness state: the COW frame 5 has reference count 1. -/
def c7s : VMState :=
  { current := ⟨0, c7pt⟩, queue := [], ptbr := c7pt,
    mapcounts := fun g => if g = 5 then 1 else 0,
    tlb := fun _ => TLBEntry.init }

/-- C9 witness state: directory 0 present with an invalid PTE whose stale
frame 0 has count 16, and every frame at the cap, so the internal
`alloc_page` fails. -/
def c9ws : VMState :=
  { current := ⟨0, ptW 0 PTEDirectory.init⟩, queue := [], ptbr := ptW 0 PTEDirectory.init,
    mapcounts := fun _ => 16, tlb := fun _ => TLBEntry.init }

/-- C4 witness page table: one exclusively-owned COW-eligible PTE. -/
def c4wPT : PageTable := ptW 0 (dirW 0 ⟨true, true, 5, 3⟩)

def c4ws : VMState :=
  { current := ⟨0, c4wPT⟩, queue := [], ptbr := c4wPT,
    mapcounts := fun g => if g = 5 then 1 else 0, tlb := fun _ => TLBEntry.init }

/-- C10 witness page table: a valid private read-only PTE (`private = 1`). -/
def c10wPT : PageTable := ptW 0 (dirW 0 ⟨true, false, 7, 1⟩)

def c10ws : VMState :=
  { current := ⟨0, c10wPT⟩, queue := [], ptbr := c10wPT,
    mapcounts := fun g => if g = 7 then 1 else 0, tlb := fun _ => TLBEntry.init }

/-- C3 witness page table: shared COW PTE at vpn 0 on frame 5. -/
def c3wPT : PageTable := ptW 0 (dirW 0 ⟨true, false, 5, 3⟩)

def c3wOther : Process := ⟨1, c3wPT⟩

/-- C3 witness state: two processes share frame 5 (`mapcounts 5 = 2`) and
free frames exist, so the copy-on-write fault succeeds. -/
def c3ws : VMState :=
  { current := ⟨0, c3wPT⟩, queue := [c3wOther], ptbr := c3wPT,
    mapcounts := fun g => if g = 5 then 2 else 0,
    tlb := fun _ => TLBEntry.init }

/-! ## Helper lemmas -/

theorem bumpMapcounts_apply (l : List PTE) (m : Nat → Nat) (f : Nat) (hm : m f < UINT_MOD) :
    bumpMapcounts l m f = (m f + l.countP (fun p => p.pfn == f)) % UINT_MOD := by
  induction l generalizing m with
  | nil =>
    simp only [bumpMapcounts, List.foldl_nil, List.countP_nil, Nat.add_zero]
    exact (Nat.mod_eq_of_lt hm).symm
  | cons p l ih =>
    have hstep : bumpMapcounts (p :: l) m = bumpMapcounts l (Function.update m p.pfn (uinc (m p.pfn))) := rfl
    rw [hstep, List.countP_cons]
    by_cases hp : p.pfn = f
    · subst hp
      have h1 : Function.update m p.pfn (uinc (m p.pfn)) p.pfn = uinc (m p.pfn) :=
        Function.update_same _ _ _
      have h2 : uinc (m p.pfn) < UINT_MOD := Nat.mod_lt _ (by norm_num [UINT_MOD])
      rw [ih _ (by rw [h1]; exact h2), h1]
      simp only [beq_self_eq_true, if_pos, uinc]
      rw [Nat.mod_add_mod]
      congr 1
      omega
    · have hne : f ≠ p.pfn := fun h => hp h.symm
      have h1 : Function.update m p.pfn (uinc (m p.pfn)) f = m f := Function.update_noteq hne _ _
      rw [ih _ (by rw [h1]; exact hm), h1]
      have hb : (p.pfn == f) = false := by simp [hp]
      rw [hb]
      simp

theorem find?_pid_append (q1 q2 : List Process) (t : Process) (pid : Nat)
    (h1 : ∀ p ∈ q1, p.pid ≠ pid) (ht : t.pid = pid) :
    (q1 ++ t :: q2).find? (fun p => p.pid == pid) = some t := by
  induction q1 with
  | nil =>
    simp only [List.nil_append]
    exact List.find?_cons_of_pos _ (by simp [ht])
  | cons a q1 ih =>
    simp only [List.cons_append]
    rw [List.find?_cons_of_neg _ (by simp [h1 a (by simp)])]
    exact ih (fun p hp => h1 p (by simp [hp]))

theorem eraseFirstPid_append (q1 q2 : List Process) (t : Process) (pid : Nat)
    (h1 : ∀ p ∈ q1, p.pid ≠ pid) (ht : t.pid = pid) :
    eraseFirstPid (q1 ++ t :: q2) pid = q1 ++ q2 := by
  induction q1 with
  | nil => simp [eraseFirstPid, ht]
  | cons a q1 ih =>
    simp only [List.cons_append, eraseFirstPid]
    rw [if_neg (h1 a (by simp))]
    exact congrArg (a :: ·) (ih (fun p hp => h1 p (by simp [hp])))

theorem allocScanPfn_spec (m : Nat → Nat) (g : Nat) (hg : g < NR_PAGEFRAMES) (hz : m g = 0) :
    m (allocScanPfn m) = 0 ∧ allocScanPfn m < NR_PAGEFRAMES := by
  unfold allocScanPfn
  cases hfind : (List.range NR_PAGEFRAMES).find? (fun i => m i == 0) with
  | none =>
    exfalso
    rw [List.find?_eq_none] at hfind
    exact hfind g (List.mem_range.mpr hg) (by simp [hz])
  | some i =>
    constructor
    · have := List.find?_some hfind
      simpa using this
    · exact List.mem_range.mp (List.mem_of_find?_eq_some hfind)

/-! ## Claim theorems -/

/-- C1 (code_bug evidence): with every frame occupied (`mapcounts ≡ 1`,
no reference count zero, none at the cap of 16), `alloc_page` does not fail
with the OutOfMemory sentinel; it returns the last scanned frame 127, which
is already occupied, maps vpn 0 onto it and raises its count to 2. -/
theorem c1_alloc_overcommits_occupied_frame :
    (∀ g, g < NR_PAGEFRAMES → c1s.mapcounts g ≠ 0) ∧
    (alloc_page c1s 0 2).1 = some 127 ∧
    c1s.mapcounts 127 = 1 ∧
    (alloc_page c1s 0 2).2.mapcounts 127 = 2 ∧
    pteAt (alloc_page c1s 0 2).2 0 = some ⟨true, true, 127, 3⟩ := by decide

/-- C2 (code_bug evidence): after the reachable trace
`alloc_page 0 RW; alloc_page 1 RW; free_page 1; handle_page_fault 1 RD`,
the fault handler reports success, yet two valid PTEs (vpn 0 and the
revalidated stale vpn 1) name frame 0 while `mapcounts 0` is still 1 —
the reference-count invariant is broken right after a fault-handling
operation. -/
theorem c2_invariant_broken_by_fault_path :
    (free_page c2s2 1).isSome = true ∧
    (handle_page_fault c2s3 1 1).1 = true ∧
    totalCount (handle_page_fault c2s3 1 1).2 0 = 2 ∧
    (handle_page_fault c2s3 1 1).2.mapcounts 0 = 1 := by decide

/-- C5 (code_bug evidence): deallocating an unmapped vpn is not rejected.
With the outer directory absent, `free_page` dereferences NULL (modelled
`none`); with the directory present but the PTE invalid it does not leave
the state unchanged — it decrements the stale frame-0 count, underflowing
the unsigned counter from 0 to `2^32 - 1`. -/
theorem c5_free_unmapped_not_rejected :
    (free_page initState 0).isNone = true ∧
    (free_page c5sB 1).isSome = true ∧
    c5sB.mapcounts 0 = 0 ∧
    ((free_page c5sB 1).getD c5sB).mapcounts 0 = UINT_MOD - 1 := by decide

/-- C3 (counterexample): in a state satisfying the claim's premise — two
processes share a valid, non-writable, COW-eligible PTE at vpn 0 on frame 5
with `mapcounts 5 = 2` — but with every other frame at the sharing cap, the
write fault handled for the current process leaves the faulting PTE still
pointing at frame 5 (no fresh frame distinct from 5, since the internal
allocation failed) while marking it writable, contradicting the claim's
required postcondition. -/
theorem c3_counterexample_pool_exhausted :
    pteAt c3cex 0 = some ⟨true, false, 5, 3⟩ ∧
    (∀ p ∈ c3cex.queue, pteAt { c3cex with current := p } 0 = some ⟨true, false, 5, 3⟩) ∧
    c3cex.mapcounts 5 = 2 ∧
    (handle_page_fault c3cex 0 2).1 = true ∧
    pteAt (handle_page_fault c3cex 0 2).2 0 = some ⟨true, true, 5, 3⟩ ∧
    (handle_page_fault c3cex 0 2).2.mapcounts 5 = 1 := by decide

/-- C8: after `flush_tlb`, `lookup_tlb` misses for every vpn, whatever the
cache held before. -/
theorem c8_lookup_after_flush_misses (t : Nat → TLBEntry) (vpn : Nat) :
    lookup_tlb (flush_tlb t) vpn = none := by
  unfold lookup_tlb
  have h : (List.range NR_TLB_ENTRIES).find?
      (fun i => (flush_tlb t i).valid && (flush_tlb t i).vpn == vpn) = none := by
    rw [List.find?_eq_none]
    intro i _
    simp [flush_tlb]
  rw [h]

theorem alloc_page_dir_after (s : VMState) (vpn rw : Nat) :
    ∃ pd', (alloc_page s vpn rw).2.current.pagetable.outer_ptes (vpn / NR_PTES_PER_PAGE) = some pd' ∧
      ((pd'.ptes (vpn % NR_PTES_PER_PAGE)).valid = true ∨
        pd'.ptes (vpn % NR_PTES_PER_PAGE) =
          ((s.current.pagetable.outer_ptes (vpn / NR_PTES_PER_PAGE)).getD PTEDirectory.init).ptes
            (vpn % NR_PTES_PER_PAGE)) := by
  by_cases h16 : s.mapcounts (allocScanPfn s.mapcounts) = 16
  · refine ⟨(s.current.pagetable.outer_ptes (vpn / NR_PTES_PER_PAGE)).getD PTEDirectory.init,
      ?_, Or.inr rfl⟩
    simp only [alloc_page]
    rw [if_pos h16]
    simp [withDir, Function.update_same]
  · refine ⟨⟨Function.update
        ((s.current.pagetable.outer_ptes (vpn / NR_PTES_PER_PAGE)).getD PTEDirectory.init).ptes
        (vpn % NR_PTES_PER_PAGE)
        (if rw = 1 then ⟨true, false, allocScanPfn s.mapcounts, 1⟩
         else ⟨true, true, allocScanPfn s.mapcounts, 3⟩)⟩, ?_, Or.inl ?_⟩
    · simp only [alloc_page]
      rw [if_neg h16]
      simp [withDir, Function.update_same]
    · simp only [Function.update_same]
      split <;> rfl

theorem alloc_page_success_eq (s : VMState) (vpn rw : Nat)
    (h16 : s.mapcounts (allocScanPfn s.mapcounts) ≠ 16) :
    alloc_page s vpn rw =
      (some (allocScanPfn s.mapcounts),
       { current := { s.current with pagetable :=
           ⟨Function.update s.current.pagetable.outer_ptes (vpn / NR_PTES_PER_PAGE)
             (some ⟨Function.update
               ((s.current.pagetable.outer_ptes (vpn / NR_PTES_PER_PAGE)).getD PTEDirectory.init).ptes
               (vpn % NR_PTES_PER_PAGE)
               (if rw = 1 then ⟨true, false, allocScanPfn s.mapcounts, 1⟩
                else ⟨true, true, allocScanPfn s.mapcounts, 3⟩)⟩)⟩ },
         queue := s.queue, ptbr := s.ptbr,
         mapcounts := Function.update s.mapcounts (allocScanPfn s.mapcounts)
           (uinc (s.mapcounts (allocScanPfn s.mapcounts))),
         tlb := s.tlb }) := by
  simp only [alloc_page]
  rw [if_neg h16]
  rfl

/-- C6: switching to a pid present in the ready queue removes exactly that
process (the first match), installs it as current with `ptbr` on its page
table, appends the old current to the tail, flushes the TLB, and leaves
everything else — including the relative order of the other queued
processes and all frame counts — unchanged. -/
theorem c6_switch_to_queued_pid (s : VMState) (pid : Nat) (q1 q2 : List Process) (t : Process)
    (hq : s.queue = q1 ++ t :: q2) (h1 : ∀ p ∈ q1, p.pid ≠ pid) (ht : t.pid = pid) :
    switch_process s pid =
      { current := t, queue := q1 ++ q2 ++ [s.current], ptbr := t.pagetable,
        mapcounts := s.mapcounts, tlb := flush_tlb s.tlb } := by
  unfold switch_process
  rw [hq, find?_pid_append q1 q2 t pid h1 ht, eraseFirstPid_append q1 q2 t pid h1 ht]

/-- C6 witness: switching to pid 7 in a three-element queue. -/
theorem c6_switch_witness :
    switch_process c6s 7 =
      { current := c6t, queue := [c6pA] ++ [c6pB] ++ [c6s.current], ptbr := c6t.pagetable,
        mapcounts := c6s.mapcounts, tlb := flush_tlb c6s.tlb } :=
  c6_switch_to_queued_pid c6s 7 [c6pA] [c6pB] c6t rfl (by decide) rfl

/-- C7: a write fault on a valid, non-writable, COW-eligible PTE whose frame
has reference count 1 promotes exactly that PTE to writable in place: the
full resulting state is the old one with only that directory slot updated,
so the PTE's pfn, every frame count, the queue, and all other PTEs are
unchanged. -/
theorem c7_cow_promote_in_place (s : VMState) (vpn : Nat) (pd : PTEDirectory)
    (hdir : s.current.pagetable.outer_ptes (vpn / NR_PTES_PER_PAGE) = some pd)
    (hv : (pd.ptes (vpn % NR_PTES_PER_PAGE)).valid = true)
    (hw : (pd.ptes (vpn % NR_PTES_PER_PAGE)).writable = false)
    (hp : (pd.ptes (vpn % NR_PTES_PER_PAGE)).priv = 3)
    (hm : s.mapcounts (pd.ptes (vpn % NR_PTES_PER_PAGE)).pfn = 1) :
    handle_page_fault s vpn 2 =
      (true, withDir s (vpn / NR_PTES_PER_PAGE)
        ⟨Function.update pd.ptes (vpn % NR_PTES_PER_PAGE)
            { pd.ptes (vpn % NR_PTES_PER_PAGE) with writable := true }⟩) ∧
    pteAt (handle_page_fault s vpn 2).2 vpn =
      some { pd.ptes (vpn % NR_PTES_PER_PAGE) with writable := true } ∧
    (handle_page_fault s vpn 2).2.mapcounts = s.mapcounts ∧
    (handle_page_fault s vpn 2).2.queue = s.queue ∧
    (∀ i, i ≠ vpn / NR_PTES_PER_PAGE →
      (handle_page_fault s vpn 2).2.current.pagetable.outer_ptes i =
        s.current.pagetable.outer_ptes i) ∧
    (∀ pd', (handle_page_fault s vpn 2).2.current.pagetable.outer_ptes (vpn / NR_PTES_PER_PAGE) =
        some pd' → ∀ j, j ≠ vpn % NR_PTES_PER_PAGE → pd'.ptes j = pd.ptes j) := by
  have hmain : handle_page_fault s vpn 2 =
      (true, withDir s (vpn / NR_PTES_PER_PAGE)
        ⟨Function.update pd.ptes (vpn % NR_PTES_PER_PAGE)
            { pd.ptes (vpn % NR_PTES_PER_PAGE) with writable := true }⟩) := by
    simp only [handle_page_fault, hdir]
    rw [if_neg (by simp [hv]), if_pos ⟨hw, hp⟩, if_pos hm]
  refine ⟨hmain, ?_, ?_, ?_, ?_, ?_⟩
  · rw [hmain]
    simp [pteAt, withDir, Function.update_same]
  · rw [hmain]
    rfl
  · rw [hmain]
    rfl
  · intro i hi
    rw [hmain]
    simp [withDir, Function.update_noteq hi]
  · intro pd' hpd' j hj
    rw [hmain] at hpd'
    simp only [withDir, Function.update_same] at hpd'
    cases hpd'
    exact Function.update_noteq hj _ _

/-- C7 witness: the witness state's PTE is promoted in place, keeping
frame 5. -/
theorem c7_cow_promote_witness :
    pteAt (handle_page_fault c7s 0 2).2 0 = some ⟨true, true, 5, 3⟩ :=
  (c7_cow_promote_in_place c7s 0 (dirW 0 ⟨true, false, 5, 3⟩) rfl (by decide) (by decide)
    (by decide) (by decide)).2.1.trans (by decide)

/-- C9: when the directory exists, the PTE is invalid, and the stale frame's
count differs from 1, `handle_page_fault` reports success unconditionally —
the OutOfMemory sentinel of the internal `alloc_page` call is discarded —
and the PTE at the faulting vpn is left marked valid in every case. -/
theorem c9_fault_swallows_oom (s : VMState) (vpn rw : Nat) (pd : PTEDirectory)
    (hdir : s.current.pagetable.outer_ptes (vpn / NR_PTES_PER_PAGE) = some pd)
    (hv : (pd.ptes (vpn % NR_PTES_PER_PAGE)).valid = false)
    (hm : s.mapcounts (pd.ptes (vpn % NR_PTES_PER_PAGE)).pfn ≠ 1) :
    (handle_page_fault s vpn rw).1 = true ∧
    ∃ pd', (handle_page_fault s vpn rw).2.current.pagetable.outer_ptes (vpn / NR_PTES_PER_PAGE) = some pd' ∧
      (pd'.ptes (vpn % NR_PTES_PER_PAGE)).valid = true := by
  have hred : handle_page_fault s vpn rw =
      (true, (alloc_page
        { current := { s.current with pagetable :=
            ⟨Function.update s.current.pagetable.outer_ptes (vpn / NR_PTES_PER_PAGE)
              (some ⟨Function.update pd.ptes (vpn % NR_PTES_PER_PAGE)
                { pd.ptes (vpn % NR_PTES_PER_PAGE) with valid := true }⟩)⟩ },
          queue := s.queue, ptbr := s.ptbr,
          mapcounts := Function.update s.mapcounts (pd.ptes (vpn % NR_PTES_PER_PAGE)).pfn
            (udec (s.mapcounts (pd.ptes (vpn % NR_PTES_PER_PAGE)).pfn)),
          tlb := s.tlb } vpn rw).2) := by
    simp only [handle_page_fault, hdir]
    rw [if_pos hv, if_neg hm]
    rfl
  rw [hred]
  refine ⟨rfl, ?_⟩
  obtain ⟨pd', h1, h2⟩ := alloc_page_dir_after _ vpn rw
  refine ⟨pd', h1, ?_⟩
  rcases h2 with h2 | h2
  · exact h2
  · rw [h2]
    simp [Function.update_same]

/-- C9 witness: fault on an invalid PTE with every frame at the cap, so the
internal allocation fails with the OutOfMemory sentinel, yet the handler
returns true and the PTE is left valid. -/
theorem c9_fault_swallows_oom_witness :
    (handle_page_fault c9ws 0 2).1 = true ∧
    ∃ pd', (handle_page_fault c9ws 0 2).2.current.pagetable.outer_ptes 0 = some pd' ∧
      (pd'.ptes 0).valid = true :=
  c9_fault_swallows_oom c9ws 0 2 PTEDirectory.init rfl (by decide) (by decide)

/-- C10: on the fork path, every frame's reference count grows by exactly
the number of valid parent PTEs naming it — regardless of the permission
tag — and every valid PTE whose tag is not the COW-eligible value 3 is
duplicated bit-for-bit into the child (same pfn, writable bit left as it
was) while the parent's copy is untouched. -/
theorem c10_fork_bumps_every_valid_pte (s : VMState) (pid : Nat)
    (hnot : ∀ p ∈ s.queue, p.pid ≠ pid) :
    (∀ f, s.mapcounts f < UINT_MOD →
      (switch_process s pid).mapcounts f =
        (s.mapcounts f + countPTEs s.current.pagetable f) % UINT_MOD) ∧
    (∃ parent, (switch_process s pid).queue = s.queue ++ [parent] ∧
      ∀ i pd, s.current.pagetable.outer_ptes i = some pd →
        ∃ cd pdp,
          (switch_process s pid).current.pagetable.outer_ptes i = some cd ∧
          parent.pagetable.outer_ptes i = some pdp ∧
          ∀ j, (pd.ptes j).valid = true → (pd.ptes j).priv ≠ 3 →
            cd.ptes j = pd.ptes j ∧ pdp.ptes j = pd.ptes j) := by
  have hfind : s.queue.find? (fun p => p.pid == pid) = none := by
    rw [List.find?_eq_none]
    intro p hp
    simp [hnot p hp]
  constructor
  · intro f hf
    simp only [switch_process, hfind]
    exact bumpMapcounts_apply _ _ _ hf
  · refine ⟨{ s.current with pagetable :=
        ⟨fun i => (s.current.pagetable.outer_ptes i).map forkParentDir⟩ }, ?_, ?_⟩
    · simp only [switch_process, hfind]
    · intro i pd hdir
      refine ⟨forkChildDir pd, forkParentDir pd, ?_, ?_, ?_⟩
      · simp only [switch_process, hfind, hdir, Option.map_some']
      · simp only [hdir, Option.map_some']
      · intro j hv hp3
        constructor
        · simp [forkChildDir, forkChildPTE, hv, hp3]
        · simp [forkParentDir, forkParentPTE, hv, hp3]

/-- C10 witness: forking with a private read-only PTE on frame 7 bumps
`mapcounts 7` from 1 to 2. -/
theorem c10_fork_bumps_witness : (switch_process c10ws 3).mapcounts 7 = 2 :=
  ((c10_fork_bumps_every_valid_pte c10ws 3 (by decide)).1 7 (by decide)).trans (by decide)

/-- C4: forking while the parent holds a valid COW-eligible PTE at `vpn` on
frame `f` with `mapcounts f = 1` (and, per the reference-count invariant,
exactly one valid parent PTE naming `f`) yields `mapcounts f = 2` with both
the parent's and the child's PTE at `vpn` valid, non-writable, and still on
frame `f`. -/
theorem c4_fork_cow_begins_readonly (s : VMState) (pid vpn f : Nat) (pd : PTEDirectory)
    (hnot : ∀ p ∈ s.queue, p.pid ≠ pid)
    (hdir : s.current.pagetable.outer_ptes (vpn / NR_PTES_PER_PAGE) = some pd)
    (hv : (pd.ptes (vpn % NR_PTES_PER_PAGE)).valid = true)
    (hp : (pd.ptes (vpn % NR_PTES_PER_PAGE)).priv = 3)
    (hf : (pd.ptes (vpn % NR_PTES_PER_PAGE)).pfn = f)
    (hm : s.mapcounts f = 1)
    (hcnt : countPTEs s.current.pagetable f = 1) :
    (switch_process s pid).mapcounts f = 2 ∧
    (∃ cd, (switch_process s pid).current.pagetable.outer_ptes (vpn / NR_PTES_PER_PAGE) = some cd ∧
      (cd.ptes (vpn % NR_PTES_PER_PAGE)).writable = false ∧
      (cd.ptes (vpn % NR_PTES_PER_PAGE)).pfn = f ∧
      (cd.ptes (vpn % NR_PTES_PER_PAGE)).valid = true) ∧
    (∃ parent, (switch_process s pid).queue = s.queue ++ [parent] ∧
      ∃ pdp, parent.pagetable.outer_ptes (vpn / NR_PTES_PER_PAGE) = some pdp ∧
        (pdp.ptes (vpn % NR_PTES_PER_PAGE)).writable = false ∧
        (pdp.ptes (vpn % NR_PTES_PER_PAGE)).pfn = f ∧
        (pdp.ptes (vpn % NR_PTES_PER_PAGE)).valid = true) := by
  have hfind : s.queue.find? (fun p => p.pid == pid) = none := by
    rw [List.find?_eq_none]
    intro p hp
    simp [hnot p hp]
  refine ⟨?_, ?_, ?_⟩
  · simp only [switch_process, hfind]
    rw [bumpMapcounts_apply _ _ _ (by rw [hm]; norm_num [UINT_MOD])]
    rw [show (validEntries s.current.pagetable).countP (fun p => p.pfn == f) =
        countPTEs s.current.pagetable f from rfl, hm, hcnt]
    norm_num [UINT_MOD]
  · refine ⟨forkChildDir pd, ?_, ?_, ?_, ?_⟩
    · simp only [switch_process, hfind, hdir, Option.map_some']
    · simp [forkChildDir, forkChildPTE, hv, hp]
    · simp [forkChildDir, forkChildPTE, hv, hp, hf]
    · simp [forkChildDir, forkChildPTE, hv, hp]
  · refine ⟨{ s.current with pagetable :=
        ⟨fun i => (s.current.pagetable.outer_ptes i).map forkParentDir⟩ }, ?_,
      forkParentDir pd, ?_, ?_, ?_, ?_⟩
    · simp only [switch_process, hfind]
    · simp only [hdir, Option.map_some']
    · simp [forkParentDir, forkParentPTE, hv, hp]
    · simp [forkParentDir, forkParentPTE, hv, hp, hf]
    · simp [forkParentDir, forkParentPTE, hv, hp]

/-- C4 witness: forking the witness state doubles frame 5's count. -/
theorem c4_fork_cow_witness : (switch_process c4ws 9).mapcounts 5 = 2 :=
  (c4_fork_cow_begins_readonly c4ws 9 0 5 (dirW 0 ⟨true, true, 5, 3⟩)
    (by decide) rfl (by decide) (by decide) (by decide) (by decide) (by decide)).1

/-- C3 (amended): in a state where two processes share a valid, non-writable
COW PTE at `vpn` on frame `f` with `mapcounts f = 2`, *and some frame has
reference count zero*, handling a write fault for the current process
decrements `mapcounts f` to 1, repoints the faulting PTE — valid and
writable — at a previously free frame distinct from `f` (whose count
becomes 1), leaves every other PTE of the faulting process unchanged, and
leaves the ready queue, hence the other process's PTE, untouched. -/
theorem c3_amended_cow_breaks_sharing (s : VMState) (vpn f : Nat) (pd : PTEDirectory)
    (other : Process) (pdo : PTEDirectory)
    (hdir : s.current.pagetable.outer_ptes (vpn / NR_PTES_PER_PAGE) = some pd)
    (hpte : pd.ptes (vpn % NR_PTES_PER_PAGE) = ⟨true, false, f, 3⟩)
    (hm : s.mapcounts f = 2)
    (hother : other ∈ s.queue)
    (hodir : other.pagetable.outer_ptes (vpn / NR_PTES_PER_PAGE) = some pdo)
    (hopte : pdo.ptes (vpn % NR_PTES_PER_PAGE) = ⟨true, false, f, 3⟩)
    (hfree : ∃ g, g < NR_PAGEFRAMES ∧ s.mapcounts g = 0) :
    (handle_page_fault s vpn 2).1 = true ∧
    (handle_page_fault s vpn 2).2.mapcounts f = 1 ∧
    (handle_page_fault s vpn 2).2.queue = s.queue ∧
    (other ∈ (handle_page_fault s vpn 2).2.queue ∧
      other.pagetable.outer_ptes (vpn / NR_PTES_PER_PAGE) = some pdo ∧
      pdo.ptes (vpn % NR_PTES_PER_PAGE) = ⟨true, false, f, 3⟩) ∧
    ∃ g pd',
      g ≠ f ∧ s.mapcounts g = 0 ∧
      (handle_page_fault s vpn 2).2.current.pagetable.outer_ptes (vpn / NR_PTES_PER_PAGE) = some pd' ∧
      pd'.ptes (vpn % NR_PTES_PER_PAGE) = ⟨true, true, g, 3⟩ ∧
      (handle_page_fault s vpn 2).2.mapcounts g = 1 ∧
      (∀ j, j ≠ vpn % NR_PTES_PER_PAGE → pd'.ptes j = pd.ptes j) := by
  have hv : (pd.ptes (vpn % NR_PTES_PER_PAGE)).valid = true := by rw [hpte]
  have hw : (pd.ptes (vpn % NR_PTES_PER_PAGE)).writable = false := by rw [hpte]
  have hpr : (pd.ptes (vpn % NR_PTES_PER_PAGE)).priv = 3 := by rw [hpte]
  have hm' : ¬ s.mapcounts (pd.ptes (vpn % NR_PTES_PER_PAGE)).pfn = 1 := by
    rw [hpte]
    simp only []
    rw [hm]
    omega
  have hudec : udec 2 = 1 := by norm_num [udec, UINT_MOD]
  have hred : handle_page_fault s vpn 2 =
      (true, (alloc_page
        { current := { s.current with pagetable :=
            ⟨Function.update s.current.pagetable.outer_ptes (vpn / NR_PTES_PER_PAGE)
              (some ⟨Function.update pd.ptes (vpn % NR_PTES_PER_PAGE)
                { pd.ptes (vpn % NR_PTES_PER_PAGE) with writable := true }⟩)⟩ },
          queue := s.queue, ptbr := s.ptbr,
          mapcounts := Function.update s.mapcounts (pd.ptes (vpn % NR_PTES_PER_PAGE)).pfn
            (udec (s.mapcounts (pd.ptes (vpn % NR_PTES_PER_PAGE)).pfn)),
          tlb := s.tlb } vpn 2).2) := by
    simp only [handle_page_fault, hdir]
    rw [if_neg (by simp [hv]), if_pos ⟨hw, hpr⟩, if_neg hm']
    rfl
  simp only [hpte, hm, hudec] at hred
  obtain ⟨g, hg, hg0⟩ := hfree
  have hgf : g ≠ f := by
    intro h
    rw [h, hm] at hg0
    omega
  have hmc2g : Function.update s.mapcounts f 1 g = 0 := by
    rw [Function.update_noteq hgf]
    exact hg0
  obtain ⟨hscan0, hscanlt⟩ := allocScanPfn_spec (Function.update s.mapcounts f 1) g hg hmc2g
  have hg0f : allocScanPfn (Function.update s.mapcounts f 1) ≠ f := by
    intro h
    rw [h, Function.update_same] at hscan0
    omega
  have hsg0 : s.mapcounts (allocScanPfn (Function.update s.mapcounts f 1)) = 0 := by
    rw [Function.update_noteq hg0f] at hscan0
    exact hscan0
  have hmc2scan : Function.update s.mapcounts f 1 (allocScanPfn (Function.update s.mapcounts f 1)) = 0 := by
    rw [Function.update_noteq hg0f]
    exact hsg0
  have halloc := alloc_page_success_eq
    { current := { s.current with pagetable :=
        ⟨Function.update s.current.pagetable.outer_ptes (vpn / NR_PTES_PER_PAGE)
          (some ⟨Function.update pd.ptes (vpn % NR_PTES_PER_PAGE) ⟨true, true, f, 3⟩⟩)⟩ },
      queue := s.queue, ptbr := s.ptbr,
      mapcounts := Function.update s.mapcounts f 1,
      tlb := s.tlb } vpn 2 (by
        show Function.update s.mapcounts f 1 (allocScanPfn (Function.update s.mapcounts f 1)) ≠ 16
        rw [hmc2scan]
        omega)
  rw [halloc] at hred
  have h21 : ¬ ((2:Nat) = 1) := by omega
  simp only [if_neg h21, Function.update_same, Option.getD_some] at hred
  rw [hred]
  refine ⟨rfl, ?_, rfl, ⟨hother, hodir, hopte⟩, ?_⟩
  · show Function.update (Function.update s.mapcounts f 1)
      (allocScanPfn (Function.update s.mapcounts f 1))
      (uinc (Function.update s.mapcounts f 1 (allocScanPfn (Function.update s.mapcounts f 1)))) f = 1
    rw [Function.update_noteq (Ne.symm hg0f), Function.update_same]
  · refine ⟨allocScanPfn (Function.update s.mapcounts f 1),
      ⟨Function.update (⟨Function.update pd.ptes (vpn % NR_PTES_PER_PAGE) ⟨true, true, f, 3⟩⟩ : PTEDirectory).ptes
        (vpn % NR_PTES_PER_PAGE)
        ⟨true, true, allocScanPfn (Function.update s.mapcounts f 1), 3⟩⟩,
      hg0f, hsg0, ?_, ?_, ?_, ?_⟩
    · show Function.update
        (Function.update s.current.pagetable.outer_ptes (vpn / NR_PTES_PER_PAGE)
          (some ⟨Function.update pd.ptes (vpn % NR_PTES_PER_PAGE) ⟨true, true, f, 3⟩⟩))
        (vpn / NR_PTES_PER_PAGE) _ (vpn / NR_PTES_PER_PAGE) = _
      rw [Function.update_same]
    · show Function.update _ (vpn % NR_PTES_PER_PAGE) _ (vpn % NR_PTES_PER_PAGE) = _
      rw [Function.update_same]
    · show Function.update (Function.update s.mapcounts f 1)
        (allocScanPfn (Function.update s.mapcounts f 1))
        (uinc (Function.update s.mapcounts f 1 (allocScanPfn (Function.update s.mapcounts f 1))))
        (allocScanPfn (Function.update s.mapcounts f 1)) = 1
      rw [Function.update_same, hmc2scan]
      norm_num [uinc, UINT_MOD]
    · intro j hj
      show Function.update
        (⟨Function.update pd.ptes (vpn % NR_PTES_PER_PAGE) ⟨true, true, f, 3⟩⟩ : PTEDirectory).ptes
        (vpn % NR_PTES_PER_PAGE) _ j = pd.ptes j
      rw [Function.update_noteq hj]
      show Function.update pd.ptes (vpn % NR_PTES_PER_PAGE) _ j = pd.ptes j
      rw [Function.update_noteq hj]

/-- C3 (amended) witness: in the two-process witness state with free frames
available, the write fault succeeds and drives frame 5's count to 1. -/
theorem c3_amended_cow_witness :
    (handle_page_fault c3ws 0 2).1 = true ∧
    (handle_page_fault c3ws 0 2).2.mapcounts 5 = 1 := by
  have h := c3_amended_cow_breaks_sharing c3ws 0 5 (dirW 0 ⟨true, false, 5, 3⟩) c3wOther
    (dirW 0 ⟨true, false, 5, 3⟩) rfl (by decide) (by decide)
    (List.mem_singleton.mpr rfl) rfl (by decide) ⟨0, by decide, by decide⟩
  exact ⟨h.1, h.2.1⟩
